import Mathlib

/-!
Shallow embedding of the URITOMO-Frontend session controller
(`src/app/hooks/useActiveMeetingLogic.ts`).

State hooks become explicit state records, async transport calls become an
explicit `Except`-valued outcome parameter, `Date` timestamps become `Nat`,
and the JS `||` fallback on possibly-undefined strings is modelled by `jsOr`.
-/

namespace UritomoMeeting

/-- JS `a || b` where `a` is a possibly-undefined string: `undefined` and the
empty string are falsy, anything else wins. -/
def jsOr (a : Option String) (b : String) : String :=
  match a with
  | none => b
  | some x => if x = "" then b else x

/-- JS `s.trim()`: strip leading and trailing whitespace (modelled on the
character list so it evaluates by kernel reduction). -/
def jsTrim (s : String) : String :=
  String.mk (((s.data.dropWhile Char.isWhitespace).reverse.dropWhile
    Char.isWhitespace).reverse)

/-- JS `hay.includes(needle)` on strings. -/
def jsIncludes (hay needle : String) : Bool :=
  decide (needle.toList <:+: hay.toList)

/-- `MediaDeviceKind` as reported by `navigator.mediaDevices.enumerateDevices`. -/
inductive MediaDeviceKind where
  | audioinput
  | videoinput
  | audiooutput
deriving DecidableEq

/-- The fields of a `MediaDeviceInfo` used by the hook. -/
structure MediaDeviceInfo where
  deviceId : String
  label : String
  kind : MediaDeviceKind
deriving DecidableEq

/-- The selected-device triple (`selectedMicId`, `selectedCameraId`,
`selectedSpeakerId`); the empty string is the unset value, matching
`useState(initialDevices?.audioInputId || '')`. -/
structure SelectedDevices where
  selectedMicId : String
  selectedCameraId : String
  selectedSpeakerId : String
deriving DecidableEq

/-- The answers of `room.getActiveDevice` for the three kinds (`none` models
`undefined`). -/
structure ActiveDevices where
  audioinput : Option String
  videoinput : Option String
  audiooutput : Option String

/-- One device class of `syncDevices` (lines 159-166):
`let tm = room.getActiveDevice(kind) || selected;
 if (list.length && !list.find(d => d.deviceId === tm)) tm = list[0].deviceId;`. -/
def reconcileOne (active : Option String) (selected : String)
    (devices : List MediaDeviceInfo) : String :=
  match devices with
  | [] => jsOr active selected
  | d :: rest =>
      if (d :: rest).any (fun x => decide (x.deviceId = jsOr active selected)) then
        jsOr active selected
      else d.deviceId

/-- The selection part of `syncDevices` (lines 151-167): partition the
enumeration by kind and reconcile each class (the code runs this under
`if (room)`, i.e. with the transport present). -/
def syncDevices (room : ActiveDevices) (sel : SelectedDevices)
    (allDevices : List MediaDeviceInfo) : SelectedDevices :=
  let micList := allDevices.filter (fun d => decide (d.kind = MediaDeviceKind.audioinput))
  let camList := allDevices.filter (fun d => decide (d.kind = MediaDeviceKind.videoinput))
  let spkList := allDevices.filter (fun d => decide (d.kind = MediaDeviceKind.audiooutput))
  { selectedMicId := reconcileOne room.audioinput sel.selectedMicId micList
    selectedCameraId := reconcileOne room.videoinput sel.selectedCameraId camList
    selectedSpeakerId := reconcileOne room.audiooutput sel.selectedSpeakerId spkList }

/-- A toast shown to the user (`sonner`'s `toast.info` / `toast.error` /
`toast.success`). -/
inductive ToastMsg where
  | info (text : String)
  | error (text : String)
  | success (text : String)
deriving DecidableEq

/-- The fields of a thrown JS error inspected by `toggleScreenShare`
(`e.name`, `e.message?`). -/
structure JsError where
  name : String
  message : Option String
deriving DecidableEq

/-- The cancellation test of `toggleScreenShare` (line 239):
`e.name === 'NotAllowedError' || e.message?.includes('Permission denied')`. -/
def isCancellationError (e : JsError) : Bool :=
  decide (e.name = "NotAllowedError") ||
    (match e.message with
     | some m => jsIncludes m "Permission denied"
     | none => false)

/-- `handleDeviceChange` (lines 214-226): `outcome` is the result of the
awaited `room.switchActiveDevice(kind, id)`; on success the selection for
`kind` is updated and a success toast shown, on failure the selection is
untouched and an error toast shown. -/
def handleDeviceChange (sel : SelectedDevices) (kind : MediaDeviceKind)
    (id : String) (outcome : Except JsError Unit) :
    SelectedDevices × Option ToastMsg :=
  match outcome with
  | .ok _ =>
      (match kind with
       | .audioinput => { sel with selectedMicId := id }
       | .videoinput => { sel with selectedCameraId := id }
       | .audiooutput => { sel with selectedSpeakerId := id },
       some (.success "デバイスを変更しました"))
  | .error _ => (sel, some (.error "切り替えに失敗しました"))

/-- Projection of the selection for one device kind. -/
def selectionOf (sel : SelectedDevices) (kind : MediaDeviceKind) : String :=
  match kind with
  | .audioinput => sel.selectedMicId
  | .videoinput => sel.selectedCameraId
  | .audiooutput => sel.selectedSpeakerId

/-- A screen source delivered by the host via `onOpenScreenPicker`. -/
structure ScreenSource where
  id : String
  name : String
  thumbnail : String
deriving DecidableEq

/-- The hook's screen-share UI state (`isScreenSharing`,
`showScreenPickerModal`, `availableScreens`). -/
structure ShareUiState where
  isScreenSharing : Bool
  showScreenPickerModal : Bool
  availableScreens : List ScreenSource
deriving DecidableEq

/-- A `selectScreenSource` message sent to the host process: `some id`
commits a source, `none` aborts. -/
abbrev HostMessage := Option String

/-- The named states of the capture negotiator, derived from the hook's
booleans: an open picker modal is `AwaitingHostSelection`, otherwise the
share flag distinguishes `Active` from `Idle`. -/
inductive ShareMachine where
  | Idle
  | AwaitingHostSelection
  | Active
deriving DecidableEq

/-- Read the capture-negotiator state off the UI booleans. -/
def shareMachineState (s : ShareUiState) : ShareMachine :=
  if s.showScreenPickerModal then ShareMachine.AwaitingHostSelection
  else if s.isScreenSharing then ShareMachine.Active
  else ShareMachine.Idle

/-- The `onOpenScreenPicker` subscription (lines 133-140): the host delivers
the source list and the picker modal opens. Only installed when
`window.ipcRenderer` exists. -/
def onOpenScreenPicker (s : ShareUiState) (sources : List ScreenSource) : ShareUiState :=
  { s with availableScreens := sources, showScreenPickerModal := true }

/-- `handleScreenSelect` (lines 248-251): forward the chosen id to the host
(`ipcRenderer?.selectScreenSource(id)` — no message if the bridge is absent)
and close the picker. Returns the new UI state and the host messages sent. -/
def handleScreenSelect (ipcAvailable : Bool) (s : ShareUiState) (id : String) :
    ShareUiState × List HostMessage :=
  ({ s with showScreenPickerModal := false },
   if ipcAvailable then [some id] else [])

/-- `handleScreenPickerCancel` (lines 253-257): send the host a null
selection, close the picker and drop the share flag. -/
def handleScreenPickerCancel (ipcAvailable : Bool) (s : ShareUiState) :
    ShareUiState × List HostMessage :=
  ({ s with showScreenPickerModal := false, isScreenSharing := false },
   if ipcAvailable then [none] else [])

/-- The transport's authoritative screen-share state: the enabled flag and
the capture source it is publishing. -/
structure TransportShare where
  screenShareEnabled : Bool
  shareSource : Option String
deriving DecidableEq

/-- Modelled from the spec: the Electron host process (the `ipcMain` side of
`selectScreenSource`, not under the analysed sources) commits a non-null
selected source to the pending transport share request, which then succeeds
publishing that source ("user selection resolves to `Active` and commits the
chosen source id to both the transport and the host"). -/
def hostCommitSource (t : TransportShare) (id : String) : TransportShare :=
  { t with screenShareEnabled := true, shareSource := some id }

/-- The success continuation of `toggleScreenShare` when turning the share
on (line 236): the awaited `setScreenShareEnabled(true, ...)` resolved, so
`setIsScreenSharing(true)`. -/
def shareRequestSucceeded (s : ShareUiState) : ShareUiState :=
  { s with isScreenSharing := true }

/-- Renderer UI, transport and host-message log for the host-picker share
flow. -/
structure ShareFlowState where
  ui : ShareUiState
  transport : TransportShare
  hostReceived : List HostMessage

/-- The end-to-end effect of the user picking a source while the host picker
is in use: `handleScreenSelect` (code) sends the id to the host and closes
the modal; the host commits it to the pending transport request
(`hostCommitSource`, modelled from the spec); the resolved await runs the
success branch of `toggleScreenShare` (code). -/
def screenSelectFlow (f : ShareFlowState) (id : String) : ShareFlowState :=
  let step := handleScreenSelect true f.ui id
  { ui := shareRequestSucceeded step.1
    transport := hostCommitSource f.transport id
    hostReceived := f.hostReceived ++ step.2 }

/-- The share-flag state tracked against the transport: `transportEnabled`
is `localParticipant.isScreenShareEnabled`, `isScreenSharing` the hook's
cached boolean. -/
structure ShareSyncState where
  transportEnabled : Bool
  isScreenSharing : Bool
deriving DecidableEq

/-- The effect at lines 142-146: on every track-set change the flag is
re-derived from the transport
(`setIsScreenSharing(localParticipant.isScreenShareEnabled)`). -/
def trackSetChangeEffect (s : ShareSyncState) : ShareSyncState :=
  { s with isScreenSharing := s.transportEnabled }

/-- `toggleScreenShare` (lines 228-246): `newState = !isScreenSharing`;
`outcome` is the awaited `setScreenShareEnabled(newState, audio:false)` —
on success the transport now is in state `newState` and the flag follows;
on a thrown error the transport is unchanged, the flag is forced off, and
the error is classified as informational cancellation or user-visible
failure. -/
def toggleScreenShare (s : ShareSyncState) (outcome : Except JsError Unit) :
    ShareSyncState × Option ToastMsg :=
  let newState := !s.isScreenSharing
  match outcome with
  | .ok _ => ({ transportEnabled := newState, isScreenSharing := newState }, none)
  | .error e =>
      ({ transportEnabled := s.transportEnabled, isScreenSharing := false },
       if isCancellationError e then some (.info "キャンセルしました")
       else some (.error "画面共有を開始できませんでした"))

/-- The two languages of the bilingual pair. -/
inductive Lang where
  | ja
  | ko
deriving DecidableEq

/-- `ChatMessage` from the hook's types; `Date` timestamps are `Nat`. -/
structure ChatMessage where
  id : String
  sender : String
  message : String
  timestamp : Nat
  isAI : Option Bool
  fileUrl : Option String
deriving DecidableEq

/-- `TranslationLog` from the hook's types. -/
structure TranslationLog where
  id : String
  speaker : String
  originalText : String
  translatedText : String
  originalLang : Lang
  timestamp : Nat
deriving DecidableEq

/-- `Participant` from the hook's types. -/
structure Participant where
  id : String
  name : String
  isVideoOn : Bool
  isMuted : Bool
  language : Option Lang
deriving DecidableEq

/-- The fields of `currentUserProp` used by the hook (`.name`, `.language`). -/
structure CurrentUser where
  name : String
  language : Option Lang
deriving DecidableEq

/-- The chat entry built by `handleSendChat` (line 273):
`{ id: Date.now().toString(), sender, message: chatInput, timestamp: new Date() }`
(`isAI` and `fileUrl` left undefined). -/
def newChatMessage (sender text : String) (now : Nat) : ChatMessage :=
  { id := toString now, sender := sender, message := text, timestamp := now,
    isAI := none, fileUrl := none }

/-- The chat composer state (`chatMessages`, `chatInput`). -/
structure ChatComposerState where
  chatMessages : List ChatMessage
  chatInput : String
deriving DecidableEq

/-- `handleSendChat` (lines 271-276): if the trimmed input is truthy
(non-empty), append one message carrying the untrimmed input and clear the
field; otherwise do nothing. -/
def handleSendChat (s : ChatComposerState) (sender : String) (now : Nat) :
    ChatComposerState :=
  if jsTrim s.chatInput ≠ "" then
    { chatMessages := s.chatMessages ++ [newChatMessage sender s.chatInput now]
      chatInput := "" }
  else s

/-- A chat entry of the finalized meeting record (lines 336-342). -/
structure RecordChatEntry where
  id : String
  userName : String
  message : String
  timestamp : Nat
  isAI : Option Bool
deriving DecidableEq

/-- A translation entry of the finalized meeting record (lines 327-335),
with human-readable language labels. -/
structure RecordTranslationEntry where
  id : String
  speaker : String
  originalText : String
  translatedText : String
  originalLang : String
  translatedLang : String
  timestamp : Nat
deriving DecidableEq

/-- A participant snapshot entry of the record (lines 315-325). -/
structure RecordParticipant where
  id : String
  name : String
  language : Option Lang
deriving DecidableEq

/-- The generated summary block (lines 343-361). -/
structure MeetingSummary where
  keyPoints : List String
  actionItems : List String
  decisions : List String
deriving DecidableEq

/-- The meeting record built by `confirmEndMeeting` (lines 310-362). -/
structure MeetingRecord where
  id : String
  title : String
  startTime : Nat
  endTime : Nat
  participants : List RecordParticipant
  translationLog : List RecordTranslationEntry
  chatMessages : List RecordChatEntry
  summary : MeetingSummary

/-- The session-timeline inputs consumed by `confirmEndMeeting`. -/
structure MeetingTimeline where
  meetingTitle : String
  startTime : Nat
  currentUser : CurrentUser
  participants : List Participant
  translationLogs : List TranslationLog
  chatMessages : List ChatMessage

/-- Map one translation log into its record entry (lines 327-335):
labels from the closed ja/ko pair. -/
def toRecordTranslation (log : TranslationLog) : RecordTranslationEntry :=
  { id := log.id, speaker := log.speaker, originalText := log.originalText,
    translatedText := log.translatedText,
    originalLang := if log.originalLang = Lang.ja then "🇯🇵 日本語" else "🇰🇷 한국어",
    translatedLang := if log.originalLang = Lang.ja then "🇰🇷 한국어" else "🇯🇵 日本語",
    timestamp := log.timestamp }

/-- Map one chat message into its record entry (lines 336-342). -/
def toRecordChat (msg : ChatMessage) : RecordChatEntry :=
  { id := msg.id, userName := msg.sender, message := msg.message,
    timestamp := msg.timestamp, isAI := msg.isAI }

/-- `confirmEndMeeting` (lines 306-362): build the meeting record from the
timeline; `now` stands for `Date.now()` / `new Date()` at finalization
(record id and `endTime`). Persistence and navigation are external effects
not modelled. -/
def confirmEndMeeting (t : MeetingTimeline) (now : Nat) : MeetingRecord :=
  { id := toString now
    title := t.meetingTitle
    startTime := t.startTime
    endTime := now
    participants :=
      { id := "me", name := t.currentUser.name, language := t.currentUser.language } ::
        t.participants.map (fun p =>
          { id := p.id, name := p.name, language := some (p.language.getD Lang.ja) })
    translationLog := t.translationLogs.map toRecordTranslation
    chatMessages := t.chatMessages.map toRecordChat
    summary :=
      { keyPoints :=
          [ "プロジェクトの進捗状況について全体的な共有が行われました"
          , "次期スプリントの計画とマイルストーンが確認されました"
          , "日韓チーム間のコラボレーションが順調に進んでいることが報告されました"
          , "技術的な課題について建設的な議論が行われました" ]
        actionItems :=
          [ "次回ミーティングまでに各チームがタスクを完了する（" ++
              jsOr ((t.participants.get? 0).map Participant.name) "担当者A" ++ "）"
          , "KPI レポートを作成し共有する（" ++
              jsOr ((t.participants.get? 1).map Participant.name) "担当者B" ++ "）"
          , "デザインレビューを実施する（" ++ t.currentUser.name ++ "）"
          , "技術ドキュメントを更新する（Uri-Tomo AI）" ]
        decisions :=
          [ "次期スプリントのリリース日を2週間後に設定"
          , "隔週で日韓合同ミーティングを継続実施"
          , "Uri-TomoのAI翻訳機能を全プロジェクトに展開" ] } }

/-- A sample microphone used as a concrete enumeration entry. -/
def sampleMic : MediaDeviceInfo :=
  { deviceId := "micA", label := "Mic A", kind := MediaDeviceKind.audioinput }

/-- A concrete share-flow state awaiting a host selection. -/
def sampleShareFlow : ShareFlowState :=
  { ui := { isScreenSharing := false, showScreenPickerModal := true,
            availableScreens := [{ id := "screen-1", name := "Screen 1", thumbnail := "t" }] }
    transport := { screenShareEnabled := false, shareSource := none }
    hostReceived := [] }

/-- A concrete chat message. -/
def sampleChat : ChatMessage :=
  { id := "10", sender := "User A", message := "hello", timestamp := 3,
    isAI := none, fileUrl := none }

/-- A concrete translation log entry. -/
def sampleTrans : TranslationLog :=
  { id := "1", speaker := "User B", originalText := "감사합니다",
    translatedText := "ありがとうございます", originalLang := Lang.ko, timestamp := 2 }

/-- A concrete meeting timeline. -/
def sampleTimeline : MeetingTimeline :=
  { meetingTitle := "日韓プロジェクト会議", startTime := 0,
    currentUser := { name := "User A", language := some Lang.ja },
    participants :=
      [ { id := "1", name := "User A", isVideoOn := true, isMuted := false,
          language := some Lang.ja }
      , { id := "2", name := "User B", isVideoOn := true, isMuted := false,
          language := some Lang.ko } ],
    translationLogs := [sampleTrans],
    chatMessages := [sampleChat] }

/-- `jsOr a` is either the identity (falsy `a`) or a constant function
(truthy `a`). -/
theorem jsOr_cases (a : Option String) :
    (∀ u : String, jsOr a u = u) ∨ ∃ x, ∀ u : String, jsOr a u = x := by
  cases a with
  | none => exact Or.inl fun u => rfl
  | some x =>
    by_cases hx : x = ""
    · exact Or.inl fun u => by simp [jsOr, hx]
    · exact Or.inr ⟨x, fun u => by simp [jsOr, hx]⟩

/-- Reconciling one device class is idempotent against an unchanged
enumeration and unchanged platform-active device. -/
theorem reconcileOne_idem (a : Option String) (s : String)
    (l : List MediaDeviceInfo) :
    reconcileOne a (reconcileOne a s l) l = reconcileOne a s l := by
  rcases jsOr_cases a with h | ⟨x, h⟩
  · cases l with
    | nil =>
      show jsOr a (jsOr a s) = jsOr a s
      rw [h (jsOr a s)]
    | cons d rest =>
      have key : ∀ v : String, reconcileOne a v (d :: rest)
          = if ((d :: rest).any fun y => decide (y.deviceId = v)) = true
            then v else d.deviceId := by
        intro v
        simp only [reconcileOne, h]
      by_cases hm : ((d :: rest).any fun y => decide (y.deviceId = s)) = true
      · have h1 : reconcileOne a s (d :: rest) = s := by rw [key, if_pos hm]
        rw [h1]
        exact h1
      · have h1 : reconcileOne a s (d :: rest) = d.deviceId := by rw [key, if_neg hm]
        rw [h1, key]
        split <;> rfl
  · cases l with
    | nil =>
      show jsOr a (jsOr a s) = jsOr a s
      rw [h (jsOr a s), h s]
    | cons d rest =>
      have key : ∀ v : String, reconcileOne a v (d :: rest)
          = if ((d :: rest).any fun y => decide (y.deviceId = x)) = true
            then x else d.deviceId := by
        intro v
        simp only [reconcileOne, h]
      rw [key, key]

/-- **C1** (claim as stated is refuted at this input): with an empty
enumeration for its class, a previously selected id is kept — even a stale
one — rather than the selection being left unset (the empty string is the
unset value). -/
theorem c1_counterexample :
    (syncDevices { audioinput := none, videoinput := none, audiooutput := none }
        { selectedMicId := "stale-mic", selectedCameraId := "", selectedSpeakerId := "" }
        []).selectedMicId = "stale-mic" ∧
    "stale-mic" ≠ "" := by
  exact ⟨rfl, by decide⟩

/-- **C1 (amended)**: after an enumeration, if the refreshed class list is
non-empty and the selected id is absent from it, the new selection is a
member of the list, and it is the platform-reported active device whenever
that device is truthy and itself in the list; if the class list is empty,
the selection becomes the platform-reported active device if truthy, else
keeps its previous value (possibly a stale id) instead of being unset. -/
theorem c1_reconcile_amended (active : Option String) (selected : String)
    (devices : List MediaDeviceInfo) :
    (devices ≠ [] → (∀ d, d ∈ devices → d.deviceId ≠ selected) →
       (∃ d, d ∈ devices ∧ d.deviceId = reconcileOne active selected devices) ∧
       (∀ a, active = some a → a ≠ "" → (∃ d, d ∈ devices ∧ d.deviceId = a) →
          reconcileOne active selected devices = a)) ∧
    (devices = [] → reconcileOne active selected devices = jsOr active selected) := by
  constructor
  · intro hne hab
    cases devices with
    | nil => exact absurd rfl hne
    | cons d rest =>
      by_cases hm : ((d :: rest).any fun y => decide (y.deviceId = jsOr active selected)) = true
      · have hres : reconcileOne active selected (d :: rest) = jsOr active selected := by
          simp [reconcileOne, hm]
        constructor
        · rcases List.any_eq_true.mp hm with ⟨y, hy, hyid⟩
          exact ⟨y, hy, by rw [hres]; exact of_decide_eq_true hyid⟩
        · intro a ha hane _
          rw [hres, ha]
          simp [jsOr, hane]
      · have hres : reconcileOne active selected (d :: rest) = d.deviceId := by
          simp only [reconcileOne]
          rw [if_neg]
          simpa using hm
        constructor
        · exact ⟨d, List.mem_cons_self d rest, hres.symm⟩
        · intro a ha hane hmem
          exfalso
          apply hm
          rcases hmem with ⟨y, hy, hyid⟩
          refine List.any_eq_true.mpr ⟨y, hy, ?_⟩
          rw [decide_eq_true_eq, hyid, ha]
          simp [jsOr, hane]
  · intro he
    subst he
    rfl

/-- **C1 witness**: a list containing only `micA` with stale selection
`gone` and platform-active `micA` reconciles to a member of the list,
namely `micA`. -/
theorem c1_amended_witness :
    (∃ d, d ∈ [sampleMic] ∧
        d.deviceId = reconcileOne (some "micA") "gone" [sampleMic]) ∧
    reconcileOne (some "micA") "gone" [sampleMic] = "micA" :=
  ⟨((c1_reconcile_amended (some "micA") "gone" [sampleMic]).1
      (by decide) (by decide)).1,
   ((c1_reconcile_amended (some "micA") "gone" [sampleMic]).1
      (by decide) (by decide)).2 "micA" rfl (by decide) (by decide)⟩

/-- **C5**: device-selection reconciliation is idempotent — reapplying
`syncDevices` with the same enumeration and the same platform-reported
active devices leaves the selection unchanged. -/
theorem c5_sync_idempotent (room : ActiveDevices) (sel : SelectedDevices)
    (allDevices : List MediaDeviceInfo) :
    syncDevices room (syncDevices room sel allDevices) allDevices
      = syncDevices room sel allDevices := by
  simp [syncDevices, reconcileOne_idem]

/-- **C2**: with the host picker in use, the user's selection closes the
picker and resolves the negotiator to `Active`, the chosen source id is
committed to the transport (share enabled with that source) and exactly that
id is sent to the host. The host-side resolution is `hostCommitSource`,
modelled from the spec. -/
theorem c2_select_resolves (f : ShareFlowState) (id : String)
    (hAwaiting : shareMachineState f.ui = ShareMachine.AwaitingHostSelection) :
    shareMachineState (screenSelectFlow f id).ui = ShareMachine.Active ∧
    (screenSelectFlow f id).transport.screenShareEnabled = true ∧
    (screenSelectFlow f id).transport.shareSource = some id ∧
    (screenSelectFlow f id).hostReceived = f.hostReceived ++ [some id] := by
  refine ⟨?_, rfl, rfl, rfl⟩
  simp [screenSelectFlow, handleScreenSelect, shareRequestSucceeded, shareMachineState]

/-- **C2 witness**: from a concrete awaiting state, selecting `screen-1`
resolves to `Active`, commits `screen-1` to the transport and sends it to
the host. -/
theorem c2_witness :
    shareMachineState (screenSelectFlow sampleShareFlow "screen-1").ui
        = ShareMachine.Active ∧
    (screenSelectFlow sampleShareFlow "screen-1").transport.shareSource
        = some "screen-1" ∧
    (screenSelectFlow sampleShareFlow "screen-1").hostReceived
        = [] ++ [some "screen-1"] :=
  ⟨(c2_select_resolves sampleShareFlow "screen-1" (by decide)).1,
   (c2_select_resolves sampleShareFlow "screen-1" (by decide)).2.2.1,
   (c2_select_resolves sampleShareFlow "screen-1" (by decide)).2.2.2⟩

/-- **C3**: cancelling an in-flight host picker (which only exists when the
IPC bridge is available) ends in `Idle` — share flag off, picker closed —
and sends the host exactly one null-selection message. -/
theorem c3_cancel_resolves (ipcAvailable : Bool) (s : ShareUiState)
    (hIpc : ipcAvailable = true) (hInflight : s.showScreenPickerModal = true) :
    shareMachineState (handleScreenPickerCancel ipcAvailable s).1 = ShareMachine.Idle ∧
    (handleScreenPickerCancel ipcAvailable s).1.isScreenSharing = false ∧
    (handleScreenPickerCancel ipcAvailable s).1.showScreenPickerModal = false ∧
    (handleScreenPickerCancel ipcAvailable s).2 = [none] ∧
    (handleScreenPickerCancel ipcAvailable s).2.length = 1 := by
  subst hIpc
  refine ⟨?_, rfl, rfl, rfl, rfl⟩
  simp [handleScreenPickerCancel, shareMachineState]

/-- **C3 witness**: cancelling a concrete open picker yields `Idle` and the
single message `selectScreenSource(null)`. -/
theorem c3_witness :
    shareMachineState (handleScreenPickerCancel true
        { isScreenSharing := false, showScreenPickerModal := true,
          availableScreens := [] }).1 = ShareMachine.Idle ∧
    (handleScreenPickerCancel true
        { isScreenSharing := false, showScreenPickerModal := true,
          availableScreens := [] }).2 = [none] :=
  ⟨(c3_cancel_resolves true
      { isScreenSharing := false, showScreenPickerModal := true,
        availableScreens := [] } rfl rfl).1,
   (c3_cancel_resolves true
      { isScreenSharing := false, showScreenPickerModal := true,
        availableScreens := [] } rfl rfl).2.2.2.1⟩

/-- **C4** (claim as stated is refuted at this input): after a successful
share start from `Idle`, a toggle whose transport call fails forces the
cached flag off while the transport's authoritative state stays on — the
flag is maintained independently and differs from the transport at that
step. -/
theorem c4_counterexample :
    ((toggleScreenShare { transportEnabled := false, isScreenSharing := false }
        (Except.ok ())).1
      = { transportEnabled := true, isScreenSharing := true }) ∧
    ((toggleScreenShare
        (toggleScreenShare { transportEnabled := false, isScreenSharing := false }
          (Except.ok ())).1
        (Except.error { name := "InternalError", message := none })).1.isScreenSharing
      = false) ∧
    ((toggleScreenShare
        (toggleScreenShare { transportEnabled := false, isScreenSharing := false }
          (Except.ok ())).1
        (Except.error { name := "InternalError", message := none })).1.transportEnabled
      = true) := by
  decide

/-- **C4 (amended)**: the observed flag equals the transport's authoritative
state after every track-set change and after every toggle whose transport
call succeeds, and a successful toggle cycle from `Idle` goes to
`Active`-agreement and back to `Idle`; but a toggle whose transport call
fails forces the flag off regardless of the transport, so the two may
diverge until the next track-set change re-derives the flag. -/
theorem c4_amended (s : ShareSyncState) :
    ((trackSetChangeEffect s).isScreenSharing
        = (trackSetChangeEffect s).transportEnabled) ∧
    ((toggleScreenShare s (Except.ok ())).1.isScreenSharing
        = (toggleScreenShare s (Except.ok ())).1.transportEnabled) ∧
    (∀ e : JsError, (toggleScreenShare s (Except.error e)).1.isScreenSharing = false) ∧
    (∀ e : JsError, (toggleScreenShare s (Except.error e)).1.transportEnabled
        = s.transportEnabled) ∧
    (s = { transportEnabled := false, isScreenSharing := false } →
      (toggleScreenShare s (Except.ok ())).1
          = { transportEnabled := true, isScreenSharing := true } ∧
      (toggleScreenShare (toggleScreenShare s (Except.ok ())).1 (Except.ok ())).1
          = { transportEnabled := false, isScreenSharing := false }) := by
  refine ⟨rfl, rfl, fun e => rfl, fun e => rfl, fun hs => ?_⟩
  subst hs
  exact ⟨rfl, rfl⟩

/-- **C4 witness**: the successful cycle from `Idle` at the concrete initial
state. -/
theorem c4_witness :
    (toggleScreenShare { transportEnabled := false, isScreenSharing := false }
        (Except.ok ())).1
      = { transportEnabled := true, isScreenSharing := true } ∧
    (toggleScreenShare
        (toggleScreenShare { transportEnabled := false, isScreenSharing := false }
          (Except.ok ())).1 (Except.ok ())).1
      = { transportEnabled := false, isScreenSharing := false } :=
  (c4_amended { transportEnabled := false, isScreenSharing := false }).2.2.2.2 rfl

/-- **C6**: invoking the native share prompt from off: success turns the
flag on (`Active`); a cancellation-class failure resolves to `Idle` with an
informational toast; any other failure resolves to `Idle`, flag forced off,
with a user-visible error toast. -/
theorem c6_native_share (s : ShareSyncState) (e : JsError)
    (hIdle : s.isScreenSharing = false) :
    ((toggleScreenShare s (Except.ok ())).1.isScreenSharing = true) ∧
    (isCancellationError e = true →
        (toggleScreenShare s (Except.error e)).1.isScreenSharing = false ∧
        (toggleScreenShare s (Except.error e)).2
          = some (ToastMsg.info "キャンセルしました")) ∧
    (isCancellationError e = false →
        (toggleScreenShare s (Except.error e)).1.isScreenSharing = false ∧
        (toggleScreenShare s (Except.error e)).2
          = some (ToastMsg.error "画面共有を開始できませんでした")) := by
  refine ⟨by simp [toggleScreenShare, hIdle], fun h => ⟨rfl, ?_⟩, fun h => ⟨rfl, ?_⟩⟩
  · simp [toggleScreenShare, h]
  · simp [toggleScreenShare, h]

/-- **C6 witness**: concrete outcomes — success turns the flag on, a
`NotAllowedError` yields the informational toast, a `TypeError` yields the
error toast. -/
theorem c6_witness :
    ((toggleScreenShare { transportEnabled := false, isScreenSharing := false }
        (Except.ok ())).1.isScreenSharing = true) ∧
    ((toggleScreenShare { transportEnabled := false, isScreenSharing := false }
        (Except.error { name := "NotAllowedError", message := none })).2
      = some (ToastMsg.info "キャンセルしました")) ∧
    ((toggleScreenShare { transportEnabled := false, isScreenSharing := false }
        (Except.error { name := "TypeError", message := none })).2
      = some (ToastMsg.error "画面共有を開始できませんでした")) :=
  ⟨(c6_native_share { transportEnabled := false, isScreenSharing := false }
      { name := "NotAllowedError", message := none } rfl).1,
   ((c6_native_share { transportEnabled := false, isScreenSharing := false }
      { name := "NotAllowedError", message := none } rfl).2.1 (by decide)).2,
   ((c6_native_share { transportEnabled := false, isScreenSharing := false }
      { name := "TypeError", message := none } rfl).2.2 (by decide)).2⟩

/-- **C7**: if the transport rejects a device switch the selection triple is
left unchanged and an error toast is surfaced; on success the selection for
the requested kind becomes the requested id and a success toast is shown. -/
theorem c7_device_switch (sel : SelectedDevices) (kind : MediaDeviceKind)
    (id : String) (e : JsError) :
    ((handleDeviceChange sel kind id (Except.error e)).1 = sel ∧
     (handleDeviceChange sel kind id (Except.error e)).2
        = some (ToastMsg.error "切り替えに失敗しました")) ∧
    (selectionOf (handleDeviceChange sel kind id (Except.ok ())).1 kind = id ∧
     (handleDeviceChange sel kind id (Except.ok ())).2
        = some (ToastMsg.success "デバイスを変更しました")) := by
  refine ⟨⟨rfl, rfl⟩, ?_, rfl⟩
  cases kind <;> rfl

/-- **C8**: finalization is deterministic in the timeline — two runs of
`confirmEndMeeting` on the same timeline yield identical chat and
translation transcripts whatever the record id / end timestamp, and each
transcript contains every accumulated entry. -/
theorem c8_finalize_deterministic (t : MeetingTimeline) (now1 now2 : Nat) :
    ((confirmEndMeeting t now1).chatMessages
        = (confirmEndMeeting t now2).chatMessages) ∧
    ((confirmEndMeeting t now1).translationLog
        = (confirmEndMeeting t now2).translationLog) ∧
    ((confirmEndMeeting t now1).chatMessages.length = t.chatMessages.length) ∧
    ((confirmEndMeeting t now1).translationLog.length = t.translationLogs.length) ∧
    (∀ m, m ∈ t.chatMessages →
        toRecordChat m ∈ (confirmEndMeeting t now1).chatMessages) ∧
    (∀ g, g ∈ t.translationLogs →
        toRecordTranslation g ∈ (confirmEndMeeting t now1).translationLog) := by
  refine ⟨rfl, rfl, by simp [confirmEndMeeting], by simp [confirmEndMeeting], ?_, ?_⟩
  · intro m hm
    exact List.mem_map_of_mem _ hm
  · intro g hg
    exact List.mem_map_of_mem _ hg

/-- **C8 witness**: on the concrete timeline, the accumulated chat entry is
in the transcript and two finalizations at different times agree. -/
theorem c8_witness :
    toRecordChat sampleChat ∈ (confirmEndMeeting sampleTimeline 5).chatMessages ∧
    (confirmEndMeeting sampleTimeline 5).chatMessages
        = (confirmEndMeeting sampleTimeline 9).chatMessages :=
  ⟨(c8_finalize_deterministic sampleTimeline 5 9).2.2.2.2.1 sampleChat (by decide),
   (c8_finalize_deterministic sampleTimeline 5 9).1⟩

/-- **C9**: sending chat entry A and then entry B (both non-blank, at
non-decreasing times) appends exactly `[A, B]` after the untouched existing
log — so A precedes B, nothing is reordered or dropped — and
`A.timestamp ≤ B.timestamp`. -/
theorem c9_chat_order (s : ChatComposerState) (senderA senderB textB : String)
    (t1 t2 : Nat) (hA : jsTrim s.chatInput ≠ "") (hB : jsTrim textB ≠ "")
    (ht : t1 ≤ t2) :
    (handleSendChat (ChatComposerState.mk
        (handleSendChat s senderA t1).chatMessages textB) senderB t2).chatMessages
      = s.chatMessages ++
          [newChatMessage senderA s.chatInput t1, newChatMessage senderB textB t2] ∧
    (newChatMessage senderA s.chatInput t1).timestamp
      ≤ (newChatMessage senderB textB t2).timestamp := by
  constructor
  · simp [handleSendChat, hA, hB]
  · exact ht

/-- **C9 witness**: two concrete sends append in order with ordered
timestamps. -/
theorem c9_witness :
    (handleSendChat (ChatComposerState.mk
        (handleSendChat (ChatComposerState.mk [] "hello") "User A" 3).chatMessages
        "world") "User B" 8).chatMessages
      = ([] : List ChatMessage) ++
          [newChatMessage "User A" "hello" 3, newChatMessage "User B" "world" 8] ∧
    (newChatMessage "User A" "hello" 3).timestamp
      ≤ (newChatMessage "User B" "world" 8).timestamp :=
  c9_chat_order (ChatComposerState.mk [] "hello") "User A" "User B"
    "world" 3 8 (by decide) (by decide) (by decide)

/-- **C10**: a blank (empty or whitespace-only) input sends nothing and
leaves the state unchanged; a non-blank input appends exactly one entry
carrying the input text and clears the field. -/
theorem c10_send_chat (s : ChatComposerState) (sender : String) (now : Nat) :
    (jsTrim s.chatInput = "" → handleSendChat s sender now = s) ∧
    (jsTrim s.chatInput ≠ "" →
      (handleSendChat s sender now).chatMessages
          = s.chatMessages ++ [newChatMessage sender s.chatInput now] ∧
      (newChatMessage sender s.chatInput now).message = s.chatInput ∧
      (handleSendChat s sender now).chatInput = "") := by
  constructor
  · intro h
    simp [handleSendChat, h]
  · intro h
    refine ⟨?_, rfl, ?_⟩ <;> simp [handleSendChat, h]

/-- **C10 witness**: a whitespace-only input is a no-op; `hello` appends one
entry. -/
theorem c10_witness :
    handleSendChat { chatMessages := [], chatInput := "   " } "User A" 7
        = { chatMessages := [], chatInput := "   " } ∧
    (handleSendChat { chatMessages := [], chatInput := "hello" } "User A" 7).chatMessages
        = [] ++ [newChatMessage "User A" "hello" 7] :=
  ⟨(c10_send_chat { chatMessages := [], chatInput := "   " } "User A" 7).1 (by decide),
   ((c10_send_chat { chatMessages := [], chatInput := "hello" } "User A" 7).2
      (by decide)).1⟩

end UritomoMeeting
